import Mathlib

set_option maxHeartbeats 1000000

/-!
Shallow embedding of the Dist_MMIDAS repository.

The repository consists of a data-preparation notebook (`dist/10x_data.ipynb`)
and cluster job scripts.  The notebook is a straight-line pandas/numpy
pipeline; we embed annotation tables as association-list rows, count matrices
as lists of rows of rationals, and fallible library operations (indexing,
column selection) as `Option`-valued functions.  The job scripts are embedded
as literal lists of scheduler directives and program invocations.
-/

/-- A pandas annotation row: an association list from column name to value. -/
abbrev Row := List (String × String)

/-- A pandas data frame: a list of rows. -/
abbrev DF := List Row

/-- Column access `r[c]` on a row: the first pair whose key is `c`. -/
def getCol (r : Row) (c : String) : Option String :=
  (r.find? (fun p => p.1 == c)).map (fun p => p.2)

/-- Positional boolean-mask selection, as in `df[mask]` / `a[mask, :]`. -/
def maskFilter {α : Type _} : List Bool → List α → List α
  | true :: m, x :: xs => x :: maskFilter m xs
  | false :: m, _ :: xs => maskFilter m xs
  | _, _ => []

/-- Elementwise fallible map: a Python loop that raises (returns `none`) as
soon as one element fails. -/
def mapO {α β : Type _} (f : α → Option β) : List α → Option (List β)
  | [] => some []
  | a :: l => (f a).bind (fun b => (mapO f l).map (fun bs => b :: bs))

/-- Index of the first occurrence of `g`, as in `np.where(xs == g)[0][0]`;
`none` models the `IndexError` raised when `g` does not occur. -/
def firstIdx (xs : List String) (g : String) : Option Nat :=
  match xs with
  | [] => none
  | x :: rest => if x == g then some 0 else (firstIdx rest g).map (fun i => i + 1)

/-- Number of columns of a rectangular ndarray given as a list of rows. -/
def ncols (m : List (List ℚ)) : ℕ :=
  ((m.head?).map List.length).getD 0

/-- Transpose `.T` of a rectangular ndarray given as a list of rows. -/
def transposeM (m : List (List ℚ)) : List (List ℚ) :=
  (List.range (ncols m)).map (fun j => m.map (fun r => r.getD j 0))

/-- Modelled from the spec: the helper `logcpm` is imported by the notebook
from `mmidas.utils.tools`, which is not part of this repository snapshot.  The
spec's glossary defines it as "log-transformed counts-per-million
normalization of gene expression counts": each count in a cell's row is
divided by the row's total over all genes and multiplied by `scaler`, and a
log transform is applied, kept abstract here as the parameter `lg`. -/
def logcpm (lg : ℚ → ℚ) (scaler : ℚ) (x : List (List ℚ)) : List (List ℚ) :=
  x.map (fun row => row.map (fun v => lg (v / row.sum * scaler)))

/-- Inputs of the notebook run: the two Smart-seq exon count matrices (rows =
genes, column 0 = gene id, columns 1.. = cells), the two annotation tables,
the `gene_symbol` column of the reference gene list, the `genes` column of the
selected-gene CSV, and the bytes of the HDF5 file fetched by `download_file`. -/
structure Inputs where
  df_vis_exon : List (List ℚ)
  df_vis_anno : DF
  df_alm_exon : List (List ℚ)
  df_alm_anno : DF
  refGeneSymbols : List String
  slc_genes : List String
  hdf5Bytes : List ℕ
  deriving DecidableEq

/-- Cell 4: `df['class'].isin(['GABAergic', 'Glutamatergic'])` for one row. -/
def isNeuron (r : Row) : Bool :=
  getCol r "class" == some "GABAergic" || getCol r "class" == some "Glutamatergic"

/-- Cell 4: the boolean mask `vis_neuron`. -/
def vis_neuron (I : Inputs) : List Bool := I.df_vis_anno.map isNeuron

/-- Cell 4: the boolean mask `alm_neuron`. -/
def alm_neuron (I : Inputs) : List Bool := I.df_alm_anno.map isNeuron

/-- Cell 4: `exon.values[:, 1:][:, mask].T` — drop the gene-id column, keep
the masked cell columns, transpose to cells-by-genes. -/
def selectCells (exon : List (List ℚ)) (mask : List Bool) : List (List ℚ) :=
  transposeM (exon.map (fun r => maskFilter mask (r.drop 1)))

/-- Cell 4: `pd.concat([df_vis_anno[vis_neuron], df_alm_anno[alm_neuron]],
ignore_index=True)`. -/
def df_anno_ (I : Inputs) : DF :=
  maskFilter (vis_neuron I) I.df_vis_anno ++ maskFilter (alm_neuron I) I.df_alm_anno

/-- Cell 4: `np.concatenate((vis_counts, alm_counts), axis=0)`. -/
def total_count (I : Inputs) : List (List ℚ) :=
  selectCells I.df_vis_exon (vis_neuron I) ++ selectCells I.df_alm_exon (alm_neuron I)

/-- Cell 4: `logCPM = logcpm(x=total_count, scaler=1e6)`. -/
def logCPMfull (lg : ℚ → ℚ) (I : Inputs) : List (List ℚ) :=
  logcpm lg 1000000 (total_count I)

/-- Cell 6: `gene_indx = [np.where(ref_genes_df.gene_symbol.values == gg)[0][0]
for gg in genes]`; `none` models the raised `IndexError`. -/
def gene_indx (I : Inputs) : Option (List ℕ) :=
  mapO (fun g => firstIdx I.refGeneSymbols g) I.slc_genes

/-- Cell 6: `log1p = logCPM[:, gene_indx]`; `none` models a raised
`IndexError`, from the lookup or from an out-of-bounds column index. -/
def log1pGenes (lg : ℚ → ℚ) (I : Inputs) : Option (List (List ℚ)) :=
  (gene_indx I).bind
    (fun idxs => mapO (fun row => mapO (fun t => row[t]?) idxs) (logCPMfull lg I))

/-- Cell 6: one row's contribution to
`(cluster != 'Low Quality') & (cluster != 'CR Lhx5') & (cluster != 'Meis2 Adamts19')`. -/
def keepCell (r : Row) : Bool :=
  (getCol r "cluster" != some "Low Quality")
    && (getCol r "cluster" != some "CR Lhx5")
    && (getCol r "cluster" != some "Meis2 Adamts19")

/-- Cell 6: the boolean mask `mask` over the merged annotation table. -/
def cellMask (I : Inputs) : List Bool := (df_anno_ I).map keepCell

/-- Cell 6: `log1p = log1p[mask, :]`. -/
def log1pFinal (lg : ℚ → ℚ) (I : Inputs) : Option (List (List ℚ)) :=
  (log1pGenes lg I).map (fun x => maskFilter (cellMask I) x)

/-- `reset_index()` materializes each kept row's original position as a new
first column named `index`. -/
def addIndexCol (p : ℕ × Row) : Row := ("index", toString p.1) :: p.2

/-- Cell 6: `df_anno = df_anno_[mask].reset_index()`. -/
def df_anno (I : Inputs) : DF :=
  (maskFilter (cellMask I) (df_anno_ I).enum).map addIndexCol

/-- Cell 7: the two taxonomy value renames applied to a `cluster` value. -/
def renVal (c v : String) : String :=
  if c == "cluster" && v == "L6b VISp Col8a1 Rprm" then "L6b Col8a1 Rprm"
  else if c == "cluster" && v == "L6 CT ALM Nxph2 Sla" then "L6 CT Nxph2 Sla"
  else v

/-- Cell 7: the two cluster-value renames applied to one row. -/
def renameClusterRow (r : Row) : Row := r.map (fun p => (p.1, renVal p.1 p.2))

/-- Cell 7: the column mapping passed to `df_anno.rename(columns=...)`. -/
def renameColsMap (c : String) : String :=
  if c == "seq_name" then "sample_id" else if c == "class" then "class_label" else c

/-- Pandas `DataFrame.rename(columns=...)`: returns a renamed copy. -/
def renameCols (df : DF) : DF :=
  df.map (fun r => r.map (fun p => (renameColsMap p.1, p.2)))

/-- Cell 7: the `df_anno.rename(...)` call's result is not assigned, so only
the in-place cluster-value renames take effect. -/
def df_annoRen (I : Inputs) : DF :=
  let _discarded := renameCols (df_anno I)
  (df_anno I).map renameClusterRow

/-- Cell 8: the column list of `sub_df`. -/
def subCols : List String :=
  ["sample_name", "sample_id", "seq_batch", "sex", "brain_hemisphere",
   "brain_region", "brain_subregion", "class", "subclass", "cluster",
   "confusion_score"]

/-- Pandas `df[[c1, ..., ck]]` restricted to one row; `none` models the
`KeyError` raised when a column is missing. -/
def rowSelect (cols : List String) (r : Row) : Option Row :=
  mapO (fun c => (getCol r c).map (fun v => (c, v))) cols

/-- Pandas `df[[c1, ..., ck]]`. -/
def selectColumns (cols : List String) (df : DF) : Option DF :=
  mapO (rowSelect cols) df

/-- Cell 8: `sub_df = df_anno[[...]]`. -/
def sub_df (I : Inputs) : Option DF := selectColumns subCols (df_annoRen I)

/-- The AnnData object written by `adata.write_h5ad`: expression matrix `X`,
per-cell metadata `obs`, gene names `var_names`, observation names
`obs_names`. -/
structure AnnData where
  X : List (List ℚ)
  obs : DF
  var_names : List String
  obs_names : List String
  deriving DecidableEq

/-- Cell 8: `sub_df.sample_id.values`. -/
def obs_names_of (df : DF) : Option (List String) :=
  mapO (fun r => getCol r "sample_id") df

/-- Cells 6–8 assembled: the single AnnData object serialized by the
notebook, or `none` when an underlying library call raises. -/
def pipeline (lg : ℚ → ℚ) (I : Inputs) : Option AnnData :=
  (log1pFinal lg I).bind (fun mat =>
    (sub_df I).bind (fun o =>
      (obs_names_of o).map (fun ns => ⟨mat, o, I.slc_genes, ns⟩)))

/-- Cell 2: `download_file(url, data_path / 'mouse_10x.hdf5')` writes the
fetched bytes to disk; no later cell reads them. -/
def downloadedFile (I : Inputs) : List ℕ := I.hdf5Bytes

/-- The whole notebook: the downloaded HDF5 bytes written to disk, and the
single serialized AnnData output. -/
def runNotebook (lg : ℚ → ℚ) (I : Inputs) : List ℕ × Option AnnData :=
  (downloadedFile I, pipeline lg I)

/-- The per-cell count vectors of an exon matrix in original cell order:
column `c` (after the gene-id column) across all gene rows. -/
def cellVectors (exon : List (List ℚ)) (n : ℕ) : List (List ℚ) :=
  (List.range n).map (fun c => exon.map (fun r => (r.drop 1).getD c 0))

/-- A job script: its `#SBATCH` directives and its program invocations. -/
structure JobScript where
  directives : List (String × String)
  pythonCalls : List (String × List String)
  deriving DecidableEq

/-- `train-scripts/run-train-fsdp-A15-E150000-WS2-v100.sh`, first script. -/
def runTrainA15 : JobScript :=
  ⟨[("-N", "1"), ("--gpus", "v100:2"), ("-c", "16"), ("--mem", "32G"),
    ("-p", "celltypes"), ("-o", "mmidas-logs/mmidas_%j.out"),
    ("-e", "mmidas-logs/mmidas_%j.err"), ("--time", "24:00:00")],
   [("train.py", ["--n_arm", "15", "--use-wandb", "--use_dist_sampler",
                  "--n_epoch", "150000"])]⟩

/-- `train-scripts/run-train-fsdp-A15-E150000-WS2-v100.sh`, second script. -/
def runTrainA1 : JobScript :=
  ⟨[("-N", "1"), ("--gpus", "v100:1"), ("-c", "32"), ("--mem", "32G"),
    ("-p", "celltypes"), ("-o", "mmidas-logs/mmidas_%j.out"),
    ("-e", "mmidas-logs/mmidas_%j.err"), ("--time", "24:00:00")],
   [("train.py", ["--n_arm", "1", "--use-wandb", "--gpus", "1",
                  "--n_epoch", "20000"])]⟩

/-- The fsdp_mnist job script (unnamed source file). -/
def fsdpMnistScript : JobScript :=
  ⟨[("-N", "1"), ("--gpus", "v100:4"), ("-c", "20"), ("--mem", "32G"),
    ("-p", "celltypes"), ("-o", "mnist-logs/mnist_%j.out"),
    ("-e", "mnist-logs/mnist_%j.err")],
   [("fsdp_mnist.py", ["--epochs", "100", "--batch-size", "256", "--model",
                       "deep", "--gpus", "4", "--num_workers", "4",
                       "--sharding", "full", "--use_batchnorm",
                       "--mixed", "none"])]⟩

/-- All training job scripts in the repository. -/
def trainScripts : List JobScript := [runTrainA15, runTrainA1, fsdpMnistScript]

/-- Whether a script carries a given scheduler directive. -/
def hasDirective (s : JobScript) (k : String) : Bool :=
  s.directives.any (fun p => p.1 == k)

/-- The value of a scheduler directive, if present. -/
def directiveVal (s : JobScript) (k : String) : Option String :=
  (s.directives.find? (fun p => p.1 == k)).map (fun p => p.2)

/-- The argument following a given flag in an argument list. -/
def argAfter : List String → String → Option String
  | [], _ => none
  | a :: rest, f => if a == f then rest.head? else argAfter rest f

/-! Helper lemmas about the list primitives. -/

theorem maskFilter_map {α β : Type _} (f : α → β) (m : List Bool) (l : List α) :
    maskFilter m (l.map f) = (maskFilter m l).map f := by
  induction m generalizing l with
  | nil => cases l <;> simp [maskFilter]
  | cons b m ih =>
    cases l with
    | nil => simp [maskFilter]
    | cons x xs => cases b <;> simp [maskFilter, ih]

theorem maskFilter_length_eq {α β : Type _} (m : List Bool) (l₁ : List α) (l₂ : List β)
    (h₁ : m.length = l₁.length) (h₂ : m.length = l₂.length) :
    (maskFilter m l₁).length = (maskFilter m l₂).length := by
  induction m generalizing l₁ l₂ with
  | nil => cases l₁ <;> cases l₂ <;> simp_all [maskFilter]
  | cons b m ih =>
    cases l₁ with
    | nil => simp at h₁
    | cons x xs =>
      cases l₂ with
      | nil => simp at h₂
      | cons y ys =>
        cases b <;> simp [maskFilter] <;>
          exact ih xs ys (by simpa using h₁) (by simpa using h₂)

theorem map_getD_range {α : Type _} (l : List α) (d : α) :
    (List.range l.length).map (fun j => l.getD j d) = l := by
  induction l with
  | nil => simp
  | cons x xs ih =>
    rw [List.length_cons, List.range_succ_eq_map, List.map_cons, List.map_map]
    have h2 : ((fun j => (x :: xs).getD j d) ∘ Nat.succ) = (fun j => xs.getD j d) := by
      funext j
      simp [Function.comp]
    rw [h2, ih]
    rfl

theorem maskFilter_eq_map_sel {α : Type _} (m : List Bool) (l : List α) (d : α)
    (h : m.length = l.length) :
    maskFilter m l = (maskFilter m (List.range m.length)).map (fun j => l.getD j d) := by
  conv_lhs => rw [← map_getD_range l d]
  rw [← maskFilter_map, h]

theorem mem_maskFilter_spec {α : Type _} (m : List Bool) (l : List α) (a : α) (d : α)
    (h : a ∈ maskFilter m l) :
    ∃ i, i < l.length ∧ i < m.length ∧ m.getD i false = true ∧ l.getD i d = a := by
  induction m generalizing l with
  | nil => cases l <;> simp [maskFilter] at h
  | cons b bs ih =>
    cases l with
    | nil => simp [maskFilter] at h
    | cons x xs =>
      cases b with
      | false =>
        obtain ⟨i, h1, h2, h3, h4⟩ := ih xs (by simpa [maskFilter] using h)
        exact ⟨i + 1, by simpa using h1, by simpa using h2, by simpa using h3,
          by simpa using h4⟩
      | true =>
        rcases (by simpa [maskFilter] using h : a = x ∨ a ∈ maskFilter bs xs) with rfl | h'
        · exact ⟨0, by simp, by simp, by simp, by simp⟩
        · obtain ⟨i, h1, h2, h3, h4⟩ := ih xs h'
          exact ⟨i + 1, by simpa using h1, by simpa using h2, by simpa using h3,
            by simpa using h4⟩

theorem getD_mem_maskFilter {α : Type _} (m : List Bool) (l : List α) (d : α) (j : ℕ)
    (hj : j < l.length) (hjm : j < m.length) (ht : m.getD j false = true) :
    l.getD j d ∈ maskFilter m l := by
  induction j generalizing m l with
  | zero =>
    cases l with
    | nil => simp at hj
    | cons x xs =>
      cases m with
      | nil => simp at hjm
      | cons b bs =>
        have hb : b = true := by simpa using ht
        subst hb
        simp [maskFilter]
  | succ j ih =>
    cases l with
    | nil => simp at hj
    | cons x xs =>
      cases m with
      | nil => simp at hjm
      | cons b bs =>
        have hmem : xs.getD j d ∈ maskFilter bs xs :=
          ih bs xs (by simpa using hj) (by simpa using hjm) (by simpa using ht)
        rw [List.getD_cons_succ]
        cases b with
        | false =>
          simp only [maskFilter]
          exact hmem
        | true =>
          simp only [maskFilter, List.mem_cons]
          exact Or.inr hmem

theorem maskFilter_zip {α β : Type _} (m : List Bool) (l₁ : List α) (l₂ : List β)
    (h₁ : m.length = l₁.length) (h₂ : m.length = l₂.length) :
    maskFilter m (l₁.zip l₂) = (maskFilter m l₁).zip (maskFilter m l₂) := by
  induction m generalizing l₁ l₂ with
  | nil => cases l₁ <;> cases l₂ <;> simp [maskFilter]
  | cons b m ih =>
    cases l₁ with
    | nil => simp at h₁
    | cons x xs =>
      cases l₂ with
      | nil => simp at h₂
      | cons y ys =>
        cases b with
        | false =>
          simp only [List.zip_cons_cons, maskFilter]
          exact ih xs ys (by simpa using h₁) (by simpa using h₂)
        | true =>
          simp only [List.zip_cons_cons, maskFilter]
          exact congrArg (List.cons (x, y))
            (ih xs ys (by simpa using h₁) (by simpa using h₂))

theorem maskFilter_map_pred {α : Type _} (p : α → Bool) (l : List α) :
    maskFilter (l.map p) l = l.filter p := by
  induction l with
  | nil => rfl
  | cons x xs ih => cases hp : p x <;> simp [maskFilter, List.filter_cons, hp, ih]

theorem mapO_length {α β : Type _} (f : α → Option β) (l : List α) (o : List β)
    (h : mapO f l = some o) : o.length = l.length := by
  induction l generalizing o with
  | nil =>
    simp only [mapO, Option.some.injEq] at h
    simp [← h]
  | cons a l ih =>
    simp only [mapO, Option.bind_eq_some, Option.map_eq_some'] at h
    obtain ⟨b, _, bs, hbs, rfl⟩ := h
    simp [ih bs hbs]

theorem mapO_getD {α β : Type _} (f : α → Option β) (l : List α) (o : List β)
    (da : α) (db : β) (h : mapO f l = some o) (i : ℕ) (hi : i < l.length) :
    f (l.getD i da) = some (o.getD i db) := by
  induction l generalizing o i with
  | nil => simp at hi
  | cons a l ih =>
    simp only [mapO, Option.bind_eq_some, Option.map_eq_some'] at h
    obtain ⟨b, hb, bs, hbs, rfl⟩ := h
    cases i with
    | zero => simpa using hb
    | succ i => simpa using ih bs hbs i (by simpa using hi)

theorem mapO_mem_rev {α β : Type _} (f : α → Option β) (l : List α) (o : List β)
    (h : mapO f l = some o) (b : β) (hb : b ∈ o) : ∃ a ∈ l, f a = some b := by
  induction l generalizing o with
  | nil =>
    simp only [mapO, Option.some.injEq] at h
    subst h
    simp at hb
  | cons a l ih =>
    simp only [mapO, Option.bind_eq_some, Option.map_eq_some'] at h
    obtain ⟨b₀, hb₀, bs, hbs, rfl⟩ := h
    rcases List.mem_cons.1 hb with rfl | hmem
    · exact ⟨a, by simp, hb₀⟩
    · obtain ⟨a', ha', hfa'⟩ := ih bs hbs hmem
      exact ⟨a', by simp [ha'], hfa'⟩

theorem mapO_isSome_of {α β : Type _} (f : α → Option β) (l : List α) (o : List β)
    (h : mapO f l = some o) (a : α) (ha : a ∈ l) : (f a).isSome := by
  induction l generalizing o with
  | nil => simp at ha
  | cons a₀ l ih =>
    simp only [mapO, Option.bind_eq_some, Option.map_eq_some'] at h
    obtain ⟨b₀, hb₀, bs, hbs, rfl⟩ := h
    rcases List.mem_cons.1 ha with rfl | hmem
    · simp [hb₀]
    · exact ih bs hbs hmem

theorem mapO_eq_none_iff {α β : Type _} (f : α → Option β) (l : List α) :
    mapO f l = none ↔ ∃ a ∈ l, f a = none := by
  induction l with
  | nil => simp [mapO]
  | cons a l ih =>
    cases hfa : f a with
    | none => simp [mapO, hfa]
    | some b => simp [mapO, hfa, Option.map_eq_none', ih]

theorem mapO_eq_map_of {α β : Type _} (f : α → Option β) (g : α → β) (l : List α)
    (o : List β) (h : mapO f l = some o)
    (hg : ∀ a ∈ l, ∀ b, f a = some b → b = g a) : o = l.map g := by
  induction l generalizing o with
  | nil =>
    simp only [mapO, Option.some.injEq] at h
    simp [← h]
  | cons a l ih =>
    simp only [mapO, Option.bind_eq_some, Option.map_eq_some'] at h
    obtain ⟨b, hb, bs, hbs, rfl⟩ := h
    rw [List.map_cons, hg a (by simp) b hb,
      ih bs hbs (fun x hx => hg x (List.mem_cons_of_mem _ hx))]

theorem getD_map_of_lt {α β : Type _} (f : α → β) (l : List α) (i : ℕ) (da : α) (db : β)
    (h : i < l.length) : (l.map f).getD i db = f (l.getD i da) := by
  rw [List.getD_eq_getElem _ _ (by simpa using h), List.getD_eq_getElem _ _ h,
    List.getElem_map]

theorem getD_mem_of_lt {α : Type _} (l : List α) (i : ℕ) (d : α) (h : i < l.length) :
    l.getD i d ∈ l := by
  rw [List.getD_eq_getElem _ _ h]
  exact List.getElem_mem h

theorem enum_getD {α : Type _} (l : List α) (i : ℕ) (d : α) (h : i < l.length) :
    l.enum.getD i (0, d) = (i, l.getD i d) := by
  rw [List.getD_eq_getElem _ _ (by simpa using h), List.getD_eq_getElem _ _ h,
    List.getElem_enum]

theorem getCol_cons (k v : String) (r : Row) (c : String) :
    getCol ((k, v) :: r) c = if k == c then some v else getCol r c := by
  by_cases h : k == c
  · rw [if_pos h]
    simp [getCol, List.find?_cons_of_pos, h]
  · rw [if_neg h]
    simp only [getCol]
    rw [List.find?_cons_of_neg]
    simpa using h

theorem getCol_eq_none_of_keys (r : Row) (c : String) (h : c ∉ r.map Prod.fst) :
    getCol r c = none := by
  induction r with
  | nil => rfl
  | cons p r ih =>
    cases p with
    | mk k v =>
      simp only [List.map_cons, List.mem_cons] at h
      push_neg at h
      rw [getCol_cons, if_neg (by simpa using Ne.symm h.1)]
      exact ih h.2

theorem getCol_isSome_of_mem_keys (r : Row) (c : String) (h : c ∈ r.map Prod.fst) :
    (getCol r c).isSome := by
  induction r with
  | nil => simp at h
  | cons p r ih =>
    cases p with
    | mk k v =>
      rw [getCol_cons]
      by_cases hk : k == c
      · rw [if_pos hk]
        rfl
      · rw [if_neg hk]
        simp only [List.map_cons, List.mem_cons] at h
        rcases h with h1 | h1
        · exact absurd (by simp [h1]) hk
        · exact ih h1

theorem getCol_renameClusterRow (r : Row) (c : String) :
    getCol (renameClusterRow r) c = (getCol r c).map (renVal c) := by
  induction r with
  | nil => rfl
  | cons p r ih =>
    cases p with
    | mk k v =>
      simp only [renameClusterRow, List.map_cons] at *
      rw [getCol_cons, getCol_cons]
      by_cases h : k = c
      · subst h
        simp
      · rw [if_neg (by simpa using h), if_neg (by simpa using h)]
        exact ih

theorem rowSelect_keys (cols : List String) (r : Row) (r' : Row)
    (h : rowSelect cols r = some r') : r'.map Prod.fst = cols := by
  induction cols generalizing r' with
  | nil =>
    simp only [rowSelect, mapO, Option.some.injEq] at h
    simp [← h]
  | cons c cs ih =>
    simp only [rowSelect, mapO, Option.bind_eq_some, Option.map_eq_some'] at h
    obtain ⟨b, hb, bs, hbs, rfl⟩ := h
    obtain ⟨v, _, rfl⟩ := hb
    simp only [List.map_cons]
    rw [ih bs hbs]

theorem rowSelect_getCol (cols : List String) (r : Row) (r' : Row) (c : String)
    (h : rowSelect cols r = some r') (hc : c ∈ cols) :
    getCol r' c = getCol r c := by
  induction cols generalizing r' with
  | nil => simp at hc
  | cons c₀ cs ih =>
    simp only [rowSelect, mapO, Option.bind_eq_some, Option.map_eq_some'] at h
    obtain ⟨b, hb, bs, hbs, rfl⟩ := h
    obtain ⟨v, hv, rfl⟩ := hb
    rw [getCol_cons]
    by_cases hcc : c₀ = c
    · subst hcc
      rw [if_pos (by simp)]
      exact hv.symm
    · rw [if_neg (by simpa using hcc)]
      rcases List.mem_cons.1 hc with rfl | hmem
      · exact absurd rfl hcc
      · exact ih bs hbs hmem

theorem rowSelect_isSome_iff (cols : List String) (r : Row) :
    (rowSelect cols r).isSome ↔ ∀ c ∈ cols, (getCol r c).isSome := by
  induction cols with
  | nil => simp [rowSelect, mapO]
  | cons c cs ih =>
    cases hg : getCol r c with
    | none => simp [rowSelect, mapO, hg]
    | some v =>
      simp only [rowSelect, mapO] at ih ⊢
      simp [hg, Option.isSome_map', ih]

theorem firstIdx_isSome_iff (xs : List String) (g : String) :
    (firstIdx xs g).isSome ↔ g ∈ xs := by
  induction xs with
  | nil => simp [firstIdx]
  | cons x rest ih =>
    by_cases h : x = g
    · subst h
      simp [firstIdx]
    · rw [firstIdx, if_neg (by simpa using h)]
      simp [Option.isSome_map', ih, Ne.symm h]

/-! Concrete test inputs used by the witness theorems. -/

/-- A VISp annotation row with all metadata columns present. -/
def rowV : Row :=
  [("sample_name", "s1"), ("sample_id", "c1"), ("seq_batch", "b1"), ("sex", "M"),
   ("brain_hemisphere", "L"), ("brain_region", "VISp"), ("brain_subregion", "v1"),
   ("class", "Glutamatergic"), ("subclass", "sc1"), ("cluster", "Cl1"),
   ("confusion_score", "0.1")]

/-- An ALM annotation row whose cluster is filtered out by the cell mask. -/
def rowA : Row :=
  [("sample_name", "s2"), ("sample_id", "c2"), ("seq_batch", "b2"), ("sex", "F"),
   ("brain_hemisphere", "R"), ("brain_region", "ALM"), ("brain_subregion", "a1"),
   ("class", "GABAergic"), ("subclass", "sc2"), ("cluster", "Meis2 Adamts19"),
   ("confusion_score", "0.2")]

/-- A small consistent input on which the pipeline succeeds. -/
def Iw : Inputs :=
  ⟨[[1, 3], [2, 5]], [rowV], [[1, 7], [2, 9]], [rowA], ["gA", "gB"], ["gB"], [0]⟩

/-- A concrete log transform for witness runs; constant so that witness
evaluation never needs to normalize rational arithmetic. -/
def zeroQ : ℚ → ℚ := fun _ => 0

/-- The AnnData object the pipeline produces on `Iw` (with `lg = zeroQ`). -/
def adW : AnnData := ⟨[[0]], [rowV], ["gB"], ["c1"]⟩

/-- An input whose selected-gene list contains a symbol absent from the
reference gene list. -/
def Ibad : Inputs :=
  ⟨[[1, 3], [2, 5]], [rowV], [[1, 7], [2, 9]], [rowA], ["gA", "gB"], ["gX"], [0]⟩

/-- A VISp annotation row missing the `confusion_score` column. -/
def rowVmiss : Row :=
  [("sample_name", "s1"), ("sample_id", "c1"), ("seq_batch", "b1"), ("sex", "M"),
   ("brain_hemisphere", "L"), ("brain_region", "VISp"), ("brain_subregion", "v1"),
   ("class", "Glutamatergic"), ("subclass", "sc1"), ("cluster", "Cl1")]

/-- An input on which metadata column selection raises a `KeyError`. -/
def IbadCols : Inputs :=
  ⟨[[1, 3], [2, 5]], [rowVmiss], [[1, 7], [2, 9]], [rowA], ["gA", "gB"], ["gB"], [0]⟩


/-! Derived facts about the pipeline. -/

theorem pipeline_parts (lg : ℚ → ℚ) (I : Inputs) (ad : AnnData)
    (h : pipeline lg I = some ad) :
    log1pFinal lg I = some ad.X ∧ sub_df I = some ad.obs
      ∧ obs_names_of ad.obs = some ad.obs_names ∧ ad.var_names = I.slc_genes := by
  simp only [pipeline, Option.bind_eq_some, Option.map_eq_some'] at h
  obtain ⟨mat, h1, o, h2, ns, h3, rfl⟩ := h
  exact ⟨h1, h2, h3, rfl⟩

/-! Claims about the job scripts. -/

/-- Claim C5 (counterexample): it is not the case that every training job
script requests a GPU count, a CPU count, a memory amount, and a wall-clock
time limit; the fsdp_mnist script is in the repository's script list and
carries no `--time` directive. -/
theorem C5_time_directive_counterexample :
    fsdpMnistScript ∈ trainScripts
    ∧ hasDirective fsdpMnistScript "--time" = false
    ∧ ¬ (∀ s ∈ trainScripts,
          hasDirective s "--gpus" = true ∧ hasDirective s "-c" = true
            ∧ hasDirective s "--mem" = true ∧ hasDirective s "--time" = true) := by
  decide

/-- Claim C5 (amended): every training job script requests a GPU count, a CPU
count and a memory amount via scheduler directives; the two train.py scripts
additionally request a wall-clock time limit, while the fsdp_mnist script does
not. -/
theorem C5_amended_resource_directives :
    (hasDirective runTrainA15 "--gpus" = true ∧ hasDirective runTrainA15 "-c" = true
      ∧ hasDirective runTrainA15 "--mem" = true)
    ∧ (hasDirective runTrainA1 "--gpus" = true ∧ hasDirective runTrainA1 "-c" = true
      ∧ hasDirective runTrainA1 "--mem" = true)
    ∧ (hasDirective fsdpMnistScript "--gpus" = true
      ∧ hasDirective fsdpMnistScript "-c" = true
      ∧ hasDirective fsdpMnistScript "--mem" = true)
    ∧ hasDirective runTrainA15 "--time" = true
    ∧ hasDirective runTrainA1 "--time" = true
    ∧ hasDirective fsdpMnistScript "--time" = false := by
  decide

/-- Claim C6: each training wrapper script invokes its external entry point
exactly once and forwards its configuration flags unchanged: the A15 script
runs `train.py` once with arm count 15 and epoch count 150000 after requesting
1 node, 2 v100 GPUs, 16 CPUs, 32G memory and a 24-hour time limit; the
fsdp_mnist script runs `fsdp_mnist.py` once with epochs 100, batch size 256,
model `deep`, 4 GPUs, 4 workers, sharding `full`, batch-norm enabled and mixed
precision `none`. -/
theorem C6_wrapper_invocations :
    runTrainA15.pythonCalls.length = 1
    ∧ runTrainA1.pythonCalls.length = 1
    ∧ fsdpMnistScript.pythonCalls.length = 1
    ∧ runTrainA15.pythonCalls.map Prod.fst = ["train.py"]
    ∧ argAfter (runTrainA15.pythonCalls.getD 0 ("", [])).2 "--n_arm" = some "15"
    ∧ argAfter (runTrainA15.pythonCalls.getD 0 ("", [])).2 "--n_epoch" = some "150000"
    ∧ directiveVal runTrainA15 "-N" = some "1"
    ∧ directiveVal runTrainA15 "--gpus" = some "v100:2"
    ∧ directiveVal runTrainA15 "-c" = some "16"
    ∧ directiveVal runTrainA15 "--mem" = some "32G"
    ∧ directiveVal runTrainA15 "--time" = some "24:00:00"
    ∧ fsdpMnistScript.pythonCalls.map Prod.fst = ["fsdp_mnist.py"]
    ∧ argAfter (fsdpMnistScript.pythonCalls.getD 0 ("", [])).2 "--epochs" = some "100"
    ∧ argAfter (fsdpMnistScript.pythonCalls.getD 0 ("", [])).2 "--batch-size"
        = some "256"
    ∧ argAfter (fsdpMnistScript.pythonCalls.getD 0 ("", [])).2 "--model" = some "deep"
    ∧ argAfter (fsdpMnistScript.pythonCalls.getD 0 ("", [])).2 "--gpus" = some "4"
    ∧ argAfter (fsdpMnistScript.pythonCalls.getD 0 ("", [])).2 "--num_workers"
        = some "4"
    ∧ argAfter (fsdpMnistScript.pythonCalls.getD 0 ("", [])).2 "--sharding"
        = some "full"
    ∧ "--use_batchnorm" ∈ (fsdpMnistScript.pythonCalls.getD 0 ("", [])).2
    ∧ argAfter (fsdpMnistScript.pythonCalls.getD 0 ("", [])).2 "--mixed" = some "none" := by
  decide

/-! Claims about the notebook pipeline. -/

/-- Claim C10: the serialized output is independent of the content of the
downloaded HDF5 file — the bytes are written to disk but never read by any
later step, so two runs differing only in those bytes produce identical
outputs. -/
theorem C10_output_independent_of_hdf5 (lg : ℚ → ℚ) (I : Inputs) (b : List ℕ) :
    (runNotebook lg { I with hdf5Bytes := b }).2 = (runNotebook lg I).2
    ∧ (runNotebook lg { I with hdf5Bytes := b }).1 = b :=
  ⟨rfl, rfl⟩

/-- Claim C7: the pipeline implements no retry or recovery — it produces no
output exactly when some underlying step raises, and a successful output
requires every fallible step to have succeeded. -/
theorem C7_error_propagation (lg : ℚ → ℚ) (I : Inputs) :
    (pipeline lg I = none ↔
      log1pFinal lg I = none ∨ sub_df I = none
        ∨ (∃ o, sub_df I = some o ∧ obs_names_of o = none))
    ∧ (∀ ad, pipeline lg I = some ad →
        (log1pGenes lg I).isSome ∧ (sub_df I).isSome ∧ (obs_names_of ad.obs).isSome) := by
  constructor
  · constructor
    · intro h
      cases h1 : log1pFinal lg I with
      | none => exact Or.inl rfl
      | some mat =>
        cases h2 : sub_df I with
        | none => exact Or.inr (Or.inl rfl)
        | some o =>
          cases h3 : obs_names_of o with
          | none => exact Or.inr (Or.inr ⟨o, rfl, h3⟩)
          | some ns =>
            rw [pipeline, h1, h2] at h
            simp [h3] at h
    · intro h
      rcases h with h1 | h2 | ⟨o, h2, h3⟩
      · simp [pipeline, h1]
      · cases h1 : log1pFinal lg I <;> simp [pipeline, h1, h2]
      · cases h1 : log1pFinal lg I <;> simp [pipeline, h1, h2, h3]
  · intro ad h
    obtain ⟨h1, h2, h3, _⟩ := pipeline_parts lg I ad h
    refine ⟨?_, by simp [h2], by simp [h3]⟩
    have hs : (log1pFinal lg I).isSome := by simp [h1]
    rw [log1pFinal, Option.isSome_map'] at hs
    exact hs

/-- Claim C7 (witness): on an input whose annotation table lacks a metadata
column, the pipeline terminates with no output written. -/
theorem C7_error_propagation_witness : pipeline zeroQ IbadCols = none :=
  (C7_error_propagation zeroQ IbadCols).1.2 (Or.inr (Or.inl (by decide)))

/-- Claim C8: the gene-index lookup is unguarded — the lookup succeeds exactly
when every selected gene symbol occurs in the reference `gene_symbol` column,
and when it fails the pipeline produces no output. -/
theorem C8_gene_lookup_guard (lg : ℚ → ℚ) (I : Inputs) :
    ((gene_indx I).isSome ↔ ∀ g ∈ I.slc_genes, g ∈ I.refGeneSymbols)
    ∧ (gene_indx I = none → pipeline lg I = none) := by
  constructor
  · constructor
    · intro h g hg
      obtain ⟨idxs, hidx⟩ := Option.isSome_iff_exists.1 h
      exact (firstIdx_isSome_iff _ _).1 (mapO_isSome_of _ _ _ hidx g hg)
    · intro h
      cases hidx : gene_indx I with
      | some _ => simp
      | none =>
        obtain ⟨g, hg, hnone⟩ := (mapO_eq_none_iff _ _).1 hidx
        have hsome : (firstIdx I.refGeneSymbols g).isSome :=
          (firstIdx_isSome_iff _ _).2 (h g hg)
        rw [hnone] at hsome
        simp at hsome
  · intro h
    simp [pipeline, log1pFinal, log1pGenes, h]

/-- Claim C8 (witness): on an input with a selected gene symbol absent from
the reference list, the lookup raises and the pipeline produces no output. -/
theorem C8_gene_lookup_guard_witness : pipeline zeroQ Ibad = none :=
  (C8_gene_lookup_guard zeroQ Ibad).2 (by decide)

/-- Claim C10 (witness): two concrete runs differing only in the downloaded
bytes agree on the serialized output. -/
theorem C10_output_independent_of_hdf5_witness :
    (runNotebook zeroQ { Iw with hdf5Bytes := [9] }).2 = (runNotebook zeroQ Iw).2
    ∧ (runNotebook zeroQ { Iw with hdf5Bytes := [9] }).1 = [9] :=
  C10_output_independent_of_hdf5 zeroQ Iw [9]

/-- Claim C1: the notebook's single serialized output is an AnnData object
whose per-cell metadata has exactly the eleven selected columns, whose
observation names are the `sample_id` values of the metadata rows, whose gene
names are the selected genes, and whose expression matrix is the gene-subset
log-CPM matrix restricted by the cell mask. -/
theorem C1_output_anndata (lg : ℚ → ℚ) (I : Inputs) (ad : AnnData)
    (h : pipeline lg I = some ad) :
    (∀ r ∈ ad.obs, r.map Prod.fst = subCols)
    ∧ ad.var_names = I.slc_genes
    ∧ ad.obs_names.length = ad.obs.length
    ∧ (∀ i, i < ad.obs.length →
        some (ad.obs_names.getD i "") = getCol (ad.obs.getD i []) "sample_id")
    ∧ (∃ fx, log1pGenes lg I = some fx ∧ ad.X = maskFilter (cellMask I) fx) := by
  obtain ⟨h1, h2, h3, h4⟩ := pipeline_parts lg I ad h
  refine ⟨?_, h4, mapO_length _ _ _ h3, ?_, ?_⟩
  · intro r hr
    obtain ⟨a, _, ha⟩ := mapO_mem_rev _ _ _ h2 r hr
    exact rowSelect_keys _ _ _ ha
  · intro i hi
    exact (mapO_getD _ _ _ [] "" h3 i hi).symm
  · obtain ⟨fx, hfx, hx⟩ := Option.map_eq_some'.1 h1
    exact ⟨fx, hfx, hx.symm⟩

/-- Claim C1 (witness): the output structure facts hold on a concrete
successful run. -/
theorem C1_output_anndata_witness :
    (∀ r ∈ adW.obs, r.map Prod.fst = subCols)
    ∧ adW.var_names = Iw.slc_genes
    ∧ adW.obs_names.length = adW.obs.length
    ∧ (∀ i, i < adW.obs.length →
        some (adW.obs_names.getD i "") = getCol (adW.obs.getD i []) "sample_id")
    ∧ (∃ fx, log1pGenes zeroQ Iw = some fx ∧ adW.X = maskFilter (cellMask Iw) fx) :=
  C1_output_anndata zeroQ Iw adW (by decide)

/-- Claim C9: the discarded `rename` call leaves the serialized metadata with
the original column name `class` and no `class_label` column; and a successful
run requires every kept input annotation row to already carry a `sample_id`
column. -/
theorem C9_rename_discarded (lg : ℚ → ℚ) (I : Inputs) (ad : AnnData)
    (h : pipeline lg I = some ad) :
    (∀ r ∈ ad.obs, getCol r "class_label" = none ∧ (getCol r "class").isSome)
    ∧ (∀ r ∈ I.df_vis_anno ++ I.df_alm_anno,
        isNeuron r = true → keepCell r = true → (getCol r "sample_id").isSome) := by
  obtain ⟨h1, h2, h3, h4⟩ := pipeline_parts lg I ad h
  constructor
  · intro r hr
    obtain ⟨a, _, ha⟩ := mapO_mem_rev _ _ _ h2 r hr
    have hkeys : r.map Prod.fst = subCols := rowSelect_keys _ _ _ ha
    constructor
    · refine getCol_eq_none_of_keys r "class_label" ?_
      rw [hkeys]
      decide
    · refine getCol_isSome_of_mem_keys r "class" ?_
      rw [hkeys]
      decide
  · intro r hr hneu hkeep
    -- the row survives the neuronal filter of cell 4
    have hrA : r ∈ df_anno_ I := by
      rw [df_anno_, vis_neuron, alm_neuron, maskFilter_map_pred, maskFilter_map_pred]
      rcases List.mem_append.1 hr with hv | ha
      · exact List.mem_append.2 (Or.inl (List.mem_filter.2 ⟨hv, hneu⟩))
      · exact List.mem_append.2 (Or.inr (List.mem_filter.2 ⟨ha, hneu⟩))
    -- it therefore occurs at some position of the merged table
    obtain ⟨j, hj, hjr⟩ := List.mem_iff_getElem.1 hrA
    have hjd : (df_anno_ I).getD j [] = r := by
      rw [List.getD_eq_getElem _ _ hj]
      exact hjr
    -- the cell mask is true at that position
    have hmask : (cellMask I).getD j false = true := by
      rw [cellMask, getD_map_of_lt keepCell _ _ [] _ hj, hjd]
      exact hkeep
    -- so the enumerated row survives the cell filter of cell 6
    have hmem : (df_anno_ I).enum.getD j (0, []) ∈
        maskFilter (cellMask I) (df_anno_ I).enum :=
      getD_mem_maskFilter _ _ _ j (by simpa using hj)
        (by simpa [cellMask] using hj) hmask
    have henum : (df_anno_ I).enum.getD j (0, []) = (j, r) := by
      rw [enum_getD _ _ _ hj, hjd]
    rw [henum] at hmem
    -- its transformed version is a row of the frame passed to column selection
    have hmem2 : renameClusterRow (addIndexCol (j, r)) ∈ df_annoRen I := by
      rw [df_annoRen, df_anno]
      exact List.mem_map_of_mem _ (List.mem_map_of_mem _ hmem)
    -- column selection succeeded on it, so `sample_id` is present
    have hsel : (rowSelect subCols (renameClusterRow (addIndexCol (j, r)))).isSome :=
      mapO_isSome_of _ _ _ h2 _ hmem2
    have hsid : (getCol (renameClusterRow (addIndexCol (j, r))) "sample_id").isSome :=
      (rowSelect_isSome_iff _ _).1 hsel "sample_id" (by decide)
    rw [getCol_renameClusterRow, Option.isSome_map'] at hsid
    rw [addIndexCol] at hsid
    rw [getCol_cons, if_neg (by decide)] at hsid
    exact hsid

/-- Claim C9 (witness): the column-name facts hold on a concrete successful
run. -/
theorem C9_rename_discarded_witness :
    (∀ r ∈ adW.obs, getCol r "class_label" = none ∧ (getCol r "class").isSome)
    ∧ (∀ r ∈ Iw.df_vis_anno ++ Iw.df_alm_anno,
        isNeuron r = true → keepCell r = true → (getCol r "sample_id").isSome) :=
  C9_rename_discarded zeroQ Iw adW (by decide)

theorem sel_mem_bound (mask : List Bool) (n : ℕ) (j : ℕ)
    (hj : j ∈ maskFilter mask (List.range n)) : j < n ∧ mask.getD j false = true := by
  obtain ⟨i, hi_n, hi_m, hmt, hval⟩ := mem_maskFilter_spec mask (List.range n) j 0 hj
  have hr : (List.range n).getD i 0 = i := by
    rw [List.getD_eq_getElem _ _ (by simpa using hi_n), List.getElem_range]
  rw [hr] at hval
  subst hval
  exact ⟨by simpa using hi_n, hmt⟩

theorem renVal_not_bad (v : String) (h1 : v ≠ "Low Quality") (h2 : v ≠ "CR Lhx5")
    (h3 : v ≠ "Meis2 Adamts19") :
    renVal "cluster" v ≠ "Low Quality" ∧ renVal "cluster" v ≠ "CR Lhx5"
      ∧ renVal "cluster" v ≠ "Meis2 Adamts19" := by
  by_cases hv1 : v = "L6b VISp Col8a1 Rprm"
  · subst hv1
    decide
  · by_cases hv2 : v = "L6 CT ALM Nxph2 Sla"
    · subst hv2
      decide
    · simp only [renVal]
      simp [hv1, hv2]
      exact ⟨h1, h2, h3⟩

/-- The per-row transformation between a kept merged-annotation row at
original position `j` and its serialized metadata row: `reset_index`, the two
cluster renames, and the metadata column selection. -/
def rowToObs (j : ℕ) (r : Row) : Option Row :=
  rowSelect subCols (renameClusterRow (addIndexCol (j, r)))

/-- Claim C2: the same boolean row mask drives both the expression matrix and
the metadata — no serialized row has one of the three excluded cluster labels,
`X` and `obs` have the same number of rows, and one selection list positions
both: row `i` of `X` and row `i` of `obs` are computed from the same original
row of the merged annotation table. -/
theorem C2_mask_alignment (lg : ℚ → ℚ) (I : Inputs) (ad : AnnData)
    (h : pipeline lg I = some ad)
    (hlen : (total_count I).length = (df_anno_ I).length) :
    (∀ r ∈ ad.obs, getCol r "cluster" ≠ some "Low Quality"
        ∧ getCol r "cluster" ≠ some "CR Lhx5"
        ∧ getCol r "cluster" ≠ some "Meis2 Adamts19")
    ∧ ad.X.length = ad.obs.length
    ∧ (∃ sel : List ℕ,
        sel = maskFilter (cellMask I) (List.range (df_anno_ I).length)
        ∧ (∃ fx, log1pGenes lg I = some fx ∧ ad.X = sel.map (fun j => fx.getD j []))
        ∧ ad.obs.length = sel.length
        ∧ (∀ i, i < sel.length →
            keepCell ((df_anno_ I).getD (sel.getD i 0) []) = true
            ∧ rowToObs (sel.getD i 0) ((df_anno_ I).getD (sel.getD i 0) [])
                = some (ad.obs.getD i []))) := by
  obtain ⟨h1, h2, h3, h4⟩ := pipeline_parts lg I ad h
  have hm_len : (cellMask I).length = (df_anno_ I).length := by simp [cellMask]
  obtain ⟨fx, hfx, hxeq⟩ := Option.map_eq_some'.1 h1
  have hfx_len : fx.length = (df_anno_ I).length := by
    simp only [log1pGenes, Option.bind_eq_some] at hfx
    obtain ⟨idxs, _, hmapo⟩ := hfx
    have := mapO_length _ _ _ hmapo
    rw [this]
    simpa [logCPMfull, logcpm] using hlen
  -- the common selection list
  have hX : ad.X = (maskFilter (cellMask I) (List.range (df_anno_ I).length)).map
      (fun j => fx.getD j []) := by
    rw [← hxeq, maskFilter_eq_map_sel (cellMask I) fx []
      (by rw [hm_len, hfx_len]), hm_len]
  have hsel_obs : ad.obs.length
      = (maskFilter (cellMask I) (List.range (df_anno_ I).length)).length := by
    rw [mapO_length _ _ _ h2]
    have hd : (df_annoRen I).length = (maskFilter (cellMask I) (df_anno_ I).enum).length := by
      simp [df_annoRen, df_anno]
    rw [hd]
    exact maskFilter_length_eq _ _ _ (by simpa using hm_len) (by simpa using hm_len)
  -- the per-row characterization of the serialized metadata rows
  have hrowchar : ∀ i, i < (maskFilter (cellMask I) (List.range (df_anno_ I).length)).length →
      (df_annoRen I).getD i []
        = renameClusterRow (addIndexCol
            (((maskFilter (cellMask I) (List.range (df_anno_ I).length)).getD i 0),
             (df_anno_ I).getD
               ((maskFilter (cellMask I) (List.range (df_anno_ I).length)).getD i 0) [])) := by
    intro i hi
    have hjlt : (maskFilter (cellMask I) (List.range (df_anno_ I).length)).getD i 0
        < (df_anno_ I).length :=
      (sel_mem_bound (cellMask I) (df_anno_ I).length _
        (getD_mem_of_lt _ _ _ hi)).1
    have hanno_len : (df_anno I).length
        = (maskFilter (cellMask I) (List.range (df_anno_ I).length)).length := by
      have : (df_anno I).length = (maskFilter (cellMask I) (df_anno_ I).enum).length := by
        simp [df_anno]
      rw [this]
      exact maskFilter_length_eq _ _ _ (by simpa using hm_len) (by simpa using hm_len)
    have hren_len : (df_annoRen I).length = (df_anno I).length := by
      simp [df_annoRen]
    have e1 : (df_annoRen I).getD i [] = renameClusterRow ((df_anno I).getD i []) := by
      have : df_annoRen I = (df_anno I).map renameClusterRow := by
        simp [df_annoRen]
      rw [this]
      exact getD_map_of_lt _ _ _ [] _ (by rw [hanno_len]; exact hi)
    have e2 : (df_anno I).getD i []
        = addIndexCol ((maskFilter (cellMask I) (df_anno_ I).enum).getD i (0, [])) := by
      rw [df_anno]
      refine getD_map_of_lt _ _ _ (0, []) _ ?_
      have : (maskFilter (cellMask I) (df_anno_ I).enum).length
          = (maskFilter (cellMask I) (List.range (df_anno_ I).length)).length :=
        maskFilter_length_eq _ _ _ (by simpa using hm_len) (by simpa using hm_len)
      rw [this]
      exact hi
    have e3 : (maskFilter (cellMask I) (df_anno_ I).enum).getD i (0, [])
        = (df_anno_ I).enum.getD
            ((maskFilter (cellMask I) (List.range (df_anno_ I).length)).getD i 0) (0, []) := by
      rw [maskFilter_eq_map_sel (cellMask I) (df_anno_ I).enum (0, [])
        (by simpa using hm_len), hm_len]
      exact getD_map_of_lt _ _ _ 0 _ hi
    have e4 : (df_anno_ I).enum.getD
        ((maskFilter (cellMask I) (List.range (df_anno_ I).length)).getD i 0) (0, [])
        = (((maskFilter (cellMask I) (List.range (df_anno_ I).length)).getD i 0),
           (df_anno_ I).getD
             ((maskFilter (cellMask I) (List.range (df_anno_ I).length)).getD i 0) []) :=
      enum_getD _ _ _ hjlt
    rw [e1, e2, e3, e4]
  refine ⟨?_, ?_, ⟨maskFilter (cellMask I) (List.range (df_anno_ I).length),
    rfl, ⟨fx, hfx, hX⟩, hsel_obs, ?_⟩⟩
  · -- no serialized row carries an excluded cluster label
    intro r hr
    obtain ⟨a, ha_mem, ha⟩ := mapO_mem_rev _ _ _ h2 r hr
    have hcol : getCol r "cluster" = getCol a "cluster" :=
      rowSelect_getCol _ _ _ _ ha (by decide)
    have hdf : df_annoRen I = (df_anno I).map renameClusterRow := by
      simp [df_annoRen]
    rw [hdf] at ha_mem
    obtain ⟨a', ha'_mem, rfl⟩ := List.mem_map.1 ha_mem
    rw [df_anno] at ha'_mem
    obtain ⟨p, hp_mem, rfl⟩ := List.mem_map.1 ha'_mem
    obtain ⟨k, hk_enum, hk_mask, hk_true, hk_val⟩ :=
      mem_maskFilter_spec (cellMask I) (df_anno_ I).enum p (0, []) hp_mem
    have hk_lt : k < (df_anno_ I).length := by simpa using hk_enum
    have hp_eq : p = (k, (df_anno_ I).getD k []) := by
      rw [← hk_val, enum_getD _ _ _ hk_lt]
    have hkeep : keepCell ((df_anno_ I).getD k []) = true := by
      have := hk_true
      rwa [cellMask, getD_map_of_lt keepCell _ _ [] _ hk_lt] at this
    simp only [keepCell, Bool.and_eq_true, bne_iff_ne] at hkeep
    subst hp_eq
    rw [hcol, getCol_renameClusterRow, addIndexCol, getCol_cons,
      if_neg (by decide)]
    cases hgc : getCol ((df_anno_ I).getD k []) "cluster" with
    | none => simp
    | some v =>
      rw [hgc] at hkeep
      have hv1 : v ≠ "Low Quality" := by
        intro hv
        exact hkeep.1.1 (by rw [hv])
      have hv2 : v ≠ "CR Lhx5" := by
        intro hv
        exact hkeep.1.2 (by rw [hv])
      have hv3 : v ≠ "Meis2 Adamts19" := by
        intro hv
        exact hkeep.2 (by rw [hv])
      obtain ⟨g1, g2, g3⟩ := renVal_not_bad v hv1 hv2 hv3
      simp only [Option.map_some']
      exact ⟨by simpa using g1, by simpa using g2, by simpa using g3⟩
  · -- X and obs have the same number of rows
    rw [hX, hsel_obs]
    simp
  · -- row i of X and row i of obs stem from the same original row
    intro i hi
    have hjlt : (maskFilter (cellMask I) (List.range (df_anno_ I).length)).getD i 0
        < (df_anno_ I).length :=
      (sel_mem_bound (cellMask I) (df_anno_ I).length _
        (getD_mem_of_lt _ _ _ hi)).1
    have hj_mask : (cellMask I).getD
        ((maskFilter (cellMask I) (List.range (df_anno_ I).length)).getD i 0) false
        = true :=
      (sel_mem_bound (cellMask I) (df_anno_ I).length _
        (getD_mem_of_lt _ _ _ hi)).2
    constructor
    · have e := getD_map_of_lt keepCell (df_anno_ I) _ [] false hjlt
      rw [← e]
      exact hj_mask
    · have hsel : rowSelect subCols ((df_annoRen I).getD i [])
          = some (ad.obs.getD i []) := by
        refine mapO_getD _ _ _ [] [] h2 i ?_
        have : (df_annoRen I).length = ad.obs.length := (mapO_length _ _ _ h2).symm
        rw [this, hsel_obs]
        exact hi
      rw [hrowchar i hi] at hsel
      exact hsel

/-- Claim C2 (witness): the mask-alignment facts hold on a concrete
successful run. -/
theorem C2_mask_alignment_witness :
    (∀ r ∈ adW.obs, getCol r "cluster" ≠ some "Low Quality"
        ∧ getCol r "cluster" ≠ some "CR Lhx5"
        ∧ getCol r "cluster" ≠ some "Meis2 Adamts19")
    ∧ adW.X.length = adW.obs.length
    ∧ (∃ sel : List ℕ,
        sel = maskFilter (cellMask Iw) (List.range (df_anno_ Iw).length)
        ∧ (∃ fx, log1pGenes zeroQ Iw = some fx
            ∧ adW.X = sel.map (fun j => fx.getD j []))
        ∧ adW.obs.length = sel.length
        ∧ (∀ i, i < sel.length →
            keepCell ((df_anno_ Iw).getD (sel.getD i 0) []) = true
            ∧ rowToObs (sel.getD i 0) ((df_anno_ Iw).getD (sel.getD i 0) [])
                = some (adW.obs.getD i []))) :=
  C2_mask_alignment zeroQ Iw adW (by decide) (by decide)

/-- Claim C3: the serialized expression values are the log-CPM normalization
of the full merged raw count matrix — each count divided by its cell's total
over all genes, scaled by 1e6, log-transformed — computed before gene
subsetting, then restricted to the selected-gene columns in CSV order and to
the mask-passing rows. -/
theorem C3_normalization_order (lg : ℚ → ℚ) (I : Inputs) (ad : AnnData)
    (idxs : List ℕ) (h : pipeline lg I = some ad) (hidx : gene_indx I = some idxs) :
    logCPMfull lg I
        = (total_count I).map (fun row => row.map (fun v => lg (v / row.sum * 1000000)))
    ∧ ad.X = maskFilter (cellMask I)
        ((logCPMfull lg I).map (fun row => idxs.map (fun t => row.getD t 0))) := by
  refine ⟨rfl, ?_⟩
  obtain ⟨h1, _, _, _⟩ := pipeline_parts lg I ad h
  obtain ⟨fx, hfx, hxeq⟩ := Option.map_eq_some'.1 h1
  simp only [log1pGenes, hidx, Option.some_bind] at hfx
  have hfx_eq : fx
      = (logCPMfull lg I).map (fun row => idxs.map (fun t => row.getD t 0)) := by
    refine mapO_eq_map_of _ _ _ _ hfx ?_
    intro row _ b hb
    refine mapO_eq_map_of _ _ _ _ hb ?_
    intro t _ v hv
    obtain ⟨hlt, hget⟩ := List.getElem?_eq_some_iff.1 hv
    rw [List.getD_eq_getElem _ _ hlt, hget]
  rw [← hxeq, hfx_eq]

/-- Claim C3 (witness): the normalization-order facts hold on a concrete
successful run. -/
theorem C3_normalization_order_witness :
    logCPMfull zeroQ Iw
        = (total_count Iw).map
            (fun row => row.map (fun v => zeroQ (v / row.sum * 1000000)))
    ∧ adW.X = maskFilter (cellMask Iw)
        ((logCPMfull zeroQ Iw).map (fun row => [1].map (fun t => row.getD t 0))) :=
  C3_normalization_order zeroQ Iw adW [1] (by decide) (by decide)

theorem selectCells_eq_maskFilter (exon : List (List ℚ)) (mask : List Bool) (n : ℕ)
    (hrect : ∀ r ∈ exon, r.length = n + 1) (h0 : 0 < exon.length)
    (hm : mask.length = n) :
    selectCells exon mask = maskFilter mask (cellVectors exon n) := by
  have hrow : ∀ e ∈ exon, maskFilter mask (e.drop 1)
      = (maskFilter mask (List.range n)).map (fun c => (e.drop 1).getD c 0) := by
    intro e he
    have hlen : mask.length = (e.drop 1).length := by
      rw [List.length_drop, hrect e he, hm]
      omega
    rw [maskFilter_eq_map_sel mask (e.drop 1) 0 hlen, hm]
  have hRHS : maskFilter mask (cellVectors exon n)
      = (maskFilter mask (List.range n)).map
          (fun c => exon.map (fun e => (e.drop 1).getD c 0)) := by
    rw [cellVectors, maskFilter_map]
  obtain ⟨e₀, rest, rfl⟩ : ∃ e₀ rest, exon = e₀ :: rest := by
    cases exon with
    | nil => simp at h0
    | cons a l => exact ⟨a, l, rfl⟩
  have hncols : ncols ((e₀ :: rest).map (fun r => maskFilter mask (r.drop 1)))
      = (maskFilter mask (List.range n)).length := by
    simp only [ncols, List.map_cons, List.head?_cons, Option.map_some', Option.getD_some]
    refine maskFilter_length_eq mask (e₀.drop 1) (List.range n) ?_ (by simp [hm])
    rw [List.length_drop, hrect e₀ (by simp), hm]
    omega
  rw [selectCells, transposeM, hncols, hRHS]
  conv_rhs => rw [← map_getD_range (maskFilter mask (List.range n)) 0]
  rw [List.map_map]
  refine List.map_congr_left ?_
  intro j hj
  have hjk : j < (maskFilter mask (List.range n)).length := List.mem_range.1 hj
  simp only [Function.comp, List.map_map]
  refine List.map_congr_left ?_
  intro e he
  simp only [Function.comp]
  rw [hrow e he, getD_map_of_lt _ _ _ 0 _ hjk]

/-- Claim C4: the merge step selects exactly the neuronal cells (class label
`GABAergic` or `Glutamatergic`) from the VISp and ALM tables, every VISp cell
precedes every ALM cell, relative order is preserved, and the count matrix and
the concatenated annotation table list the same cells in the same positions. -/
theorem C4_merge_neuronal (I : Inputs)
    (hv : ∀ r ∈ I.df_vis_exon, r.length = I.df_vis_anno.length + 1)
    (hv0 : 0 < I.df_vis_exon.length)
    (ha : ∀ r ∈ I.df_alm_exon, r.length = I.df_alm_anno.length + 1)
    (ha0 : 0 < I.df_alm_exon.length) :
    df_anno_ I = I.df_vis_anno.filter isNeuron ++ I.df_alm_anno.filter isNeuron
    ∧ total_count I
        = maskFilter (vis_neuron I) (cellVectors I.df_vis_exon I.df_vis_anno.length)
          ++ maskFilter (alm_neuron I) (cellVectors I.df_alm_exon I.df_alm_anno.length)
    ∧ (total_count I).zip (df_anno_ I)
        = maskFilter (vis_neuron I)
            ((cellVectors I.df_vis_exon I.df_vis_anno.length).zip I.df_vis_anno)
          ++ maskFilter (alm_neuron I)
            ((cellVectors I.df_alm_exon I.df_alm_anno.length).zip I.df_alm_anno)
    ∧ (total_count I).length = (df_anno_ I).length := by
  have hvsel : selectCells I.df_vis_exon (vis_neuron I)
      = maskFilter (vis_neuron I) (cellVectors I.df_vis_exon I.df_vis_anno.length) :=
    selectCells_eq_maskFilter _ _ _ hv hv0 (by simp [vis_neuron])
  have hasel : selectCells I.df_alm_exon (alm_neuron I)
      = maskFilter (alm_neuron I) (cellVectors I.df_alm_exon I.df_alm_anno.length) :=
    selectCells_eq_maskFilter _ _ _ ha ha0 (by simp [alm_neuron])
  have h1 : df_anno_ I
      = I.df_vis_anno.filter isNeuron ++ I.df_alm_anno.filter isNeuron := by
    rw [df_anno_, vis_neuron, alm_neuron, maskFilter_map_pred, maskFilter_map_pred]
  have h2 : total_count I
      = maskFilter (vis_neuron I) (cellVectors I.df_vis_exon I.df_vis_anno.length)
        ++ maskFilter (alm_neuron I) (cellVectors I.df_alm_exon I.df_alm_anno.length) := by
    rw [total_count, hvsel, hasel]
  have lv : (maskFilter (vis_neuron I)
        (cellVectors I.df_vis_exon I.df_vis_anno.length)).length
      = (maskFilter (vis_neuron I) I.df_vis_anno).length :=
    maskFilter_length_eq _ _ _ (by simp [vis_neuron, cellVectors]) (by simp [vis_neuron])
  have la : (maskFilter (alm_neuron I)
        (cellVectors I.df_alm_exon I.df_alm_anno.length)).length
      = (maskFilter (alm_neuron I) I.df_alm_anno).length :=
    maskFilter_length_eq _ _ _ (by simp [alm_neuron, cellVectors]) (by simp [alm_neuron])
  have h4 : (total_count I).length = (df_anno_ I).length := by
    rw [h2, df_anno_]
    simp [lv, la]
  have h3 : (total_count I).zip (df_anno_ I)
      = maskFilter (vis_neuron I)
          ((cellVectors I.df_vis_exon I.df_vis_anno.length).zip I.df_vis_anno)
        ++ maskFilter (alm_neuron I)
          ((cellVectors I.df_alm_exon I.df_alm_anno.length).zip I.df_alm_anno) := by
    rw [h2, df_anno_, List.zip_append lv,
      maskFilter_zip (vis_neuron I) _ _ (by simp [vis_neuron, cellVectors])
        (by simp [vis_neuron]),
      maskFilter_zip (alm_neuron I) _ _ (by simp [alm_neuron, cellVectors])
        (by simp [alm_neuron])]
  exact ⟨h1, h2, h3, h4⟩

/-- Claim C4 (witness): the merge facts hold on a concrete input with one
neuronal cell per region. -/
theorem C4_merge_neuronal_witness :
    df_anno_ Iw = Iw.df_vis_anno.filter isNeuron ++ Iw.df_alm_anno.filter isNeuron
    ∧ total_count Iw
        = maskFilter (vis_neuron Iw) (cellVectors Iw.df_vis_exon Iw.df_vis_anno.length)
          ++ maskFilter (alm_neuron Iw) (cellVectors Iw.df_alm_exon Iw.df_alm_anno.length)
    ∧ (total_count Iw).zip (df_anno_ Iw)
        = maskFilter (vis_neuron Iw)
            ((cellVectors Iw.df_vis_exon Iw.df_vis_anno.length).zip Iw.df_vis_anno)
          ++ maskFilter (alm_neuron Iw)
            ((cellVectors Iw.df_alm_exon Iw.df_alm_anno.length).zip Iw.df_alm_anno)
    ∧ (total_count Iw).length = (df_anno_ Iw).length :=
  C4_merge_neuronal Iw (by decide) (by decide) (by decide) (by decide)
